import Mathlib

/-!
Shallow embedding of the Jobly partial-update compiler
(`src/helpers/sql.js`, function `sqlForPartialUpdate`) and of the
query-construction parts of `Company.update` and `Job.update`
(`src/models`, the two model classes), together with theorems settling
the specified properties of that code.

Modelling conventions:
* A JavaScript object used as a mapping is an insertion-ordered
  association list with string keys (JS objects preserve insertion
  order for string keys, and their keys are unique).
* `Object.keys` is `List.map Prod.fst`, `Object.values` is
  `List.map Prod.snd`, property access `o[k]` is `assocLookup o k`.
* A function that can `throw` is embedded in `Except`.
-/

/-- A JavaScript value that may appear in an update payload: the
repository's payloads carry strings, numbers, booleans and `null`. -/
inductive JSValue where
  | vStr (s : String)
  | vNum (n : Int)
  | vBool (b : Bool)
  | vNull
  deriving DecidableEq, Repr

/-- An update payload (`dataToUpdate`): a JS object mapping field names
to new values, in insertion order. -/
abbrev Payload := List (String × JSValue)

/-- A field-name translation table (`jsToSql`): a JS object mapping
external field names to database column names, in insertion order. -/
abbrev Table := List (String × String)

/-- Modelled from the spec: the repository's `expressError` module is
required by `helpers/sql.js` and the model classes but is not under
`src/`; the spec describes a `BadRequest`-class error (caller-input
error carrying a message) and a `NotFound`-class error for missing
rows.  An error value is its class together with its message. -/
inductive JoblyError where
  | badRequest (msg : String)
  | notFound (msg : String)
  deriving DecidableEq, Repr

/-- JS object property access `o[key]` on an object with string keys:
the value at `key`, or `none` (JS `undefined`) when absent.  JS object
keys are unique, so first-match lookup is exact. -/
def assocLookup {α : Type} : List (String × α) → String → Option α
  | [], _ => none
  | (k, v) :: rest, key => if key = k then some v else assocLookup rest key

/-- Embeds the column-name resolution `jsToSql[colName] || colName` of
`sql.js` line 29.  JS `||` returns the right operand when the left one
is falsy: `undefined` (key absent) or the empty string (the only falsy
string). -/
def resolveCol (jsToSql : Table) (colName : String) : String :=
  match assocLookup jsToSql colName with
  | some c => if c = "" then colName else c
  | none => colName

/-- Embeds `keys.map((colName, idx) => '"' + (jsToSql[colName] || colName)
+ '"=$' + (idx + 1))` of `sql.js` lines 28-30, with the JS map callback
index starting at `idx` (the top-level call uses `idx = 0`). -/
def colsFrom (jsToSql : Table) (idx : Nat) : List String → List String
  | [] => []
  | colName :: rest =>
      ("\"" ++ resolveCol jsToSql colName ++ "\"=$" ++ toString (idx + 1))
        :: colsFrom jsToSql (idx + 1) rest

/-- The object returned by `sqlForPartialUpdate`:
`{ setCols, values }`. -/
structure SqlUpdateResult where
  setCols : String
  values : List JSValue
  deriving DecidableEq, Repr

/-- Embeds `sqlForPartialUpdate(dataToUpdate, jsToSql)` of
`src/helpers/sql.js` lines 18-38: read the keys, throw
`BadRequestError("No data")` when there are none, otherwise build the
quoted `"col"=$i` terms, join them with `", "`, and pair the joined
string with `Object.values(dataToUpdate)`. -/
def sqlForPartialUpdate (dataToUpdate : Payload) (jsToSql : Table) :
    Except JoblyError SqlUpdateResult :=
  let keys := dataToUpdate.map Prod.fst
  if keys.length = 0 then
    Except.error (JoblyError.badRequest "No data")
  else
    let cols := colsFrom jsToSql 0 keys
    Except.ok { setCols := String.intercalate ", " cols
                values := dataToUpdate.map Prod.snd }

/-- The translation table `Company.update` passes to the compiler:
`{ numEmployees: "num_employees", logoUrl: "logo_url" }`. -/
def companyJsToSql : Table :=
  [("numEmployees", "num_employees"), ("logoUrl", "logo_url")]

/-- The translation table `Job.update` passes to the compiler:
`{ equity: "equity", companyHandle: "company_handle" }`. -/
def jobJsToSql : Table :=
  [("equity", "equity"), ("companyHandle", "company_handle")]

/-- The `UPDATE companies` template literal of `Company.update`, with
`setCols` and `handleVarIdx` interpolated at their places (whitespace
reproduced from the source). -/
def companyQuerySql (setCols handleVarIdx : String) : String :=
  "UPDATE companies \n                      SET " ++ setCols ++
  " \n                      WHERE handle = " ++ handleVarIdx ++
  " \n                      RETURNING handle, " ++
  "\n                                name, " ++
  "\n                                description, " ++
  "\n                                num_employees AS \"numEmployees\", " ++
  "\n                                logo_url AS \"logoUrl\""

/-- The `UPDATE jobs` template literal of `Job.update`, with `setCols`
and `idVarIdx` interpolated at their places (whitespace reproduced from
the source). -/
def jobQuerySql (setCols idVarIdx : String) : String :=
  "UPDATE jobs \n                      SET " ++ setCols ++
  " \n                      WHERE id = " ++ idVarIdx ++
  " \n                      RETURNING id, " ++
  "\n                                title, " ++
  "\n                                salary, " ++
  "\n                                equity AS \"equity\", " ++
  "\n                                company_handle AS \"companyHandle\""

/-- Embeds the query-construction part of `Company.update(handle, data)`
(model class `Company`, lines 145-162): call the compiler with the
company translation table (a thrown `BadRequestError` propagates
uncaught through the destructuring), compute
`handleVarIdx = "$" + (values.length + 1)`, interpolate `setCols` and
`handleVarIdx` into the template, and return the pair
`(querySql, [...values, handle])` that is handed to `db.query`.  The
database execution itself is an external collaborator; on the error
path no such pair exists, so no query is issued. -/
def Company.update (handle : String) (data : Payload) :
    Except JoblyError (String × List JSValue) :=
  match sqlForPartialUpdate data companyJsToSql with
  | Except.error e => Except.error e
  | Except.ok r =>
      let handleVarIdx := "$" ++ toString (r.values.length + 1)
      Except.ok (companyQuerySql r.setCols handleVarIdx,
                 r.values ++ [JSValue.vStr handle])

/-- Embeds the query-construction part of `Job.update(id, data)` (model
class `Job`, lines 145-162), exactly parallel to `Company.update`:
`idVarIdx = "$" + (values.length + 1)`, query
`UPDATE jobs ... WHERE id = $idVarIdx`, parameters
`[...values, id]`. -/
def Job.update (id : Int) (data : Payload) :
    Except JoblyError (String × List JSValue) :=
  match sqlForPartialUpdate data jobJsToSql with
  | Except.error e => Except.error e
  | Except.ok r =>
      let idVarIdx := "$" ++ toString (r.values.length + 1)
      Except.ok (jobQuerySql r.setCols idVarIdx,
                 r.values ++ [JSValue.vNum id])

/-- The heap visible to a call of `sqlForPartialUpdate`: its two
argument objects. -/
structure JsHeap where
  dataToUpdate : Payload
  jsToSql : Table

/-- Embeds `sqlForPartialUpdate` in explicit state-passing style over
its argument objects, for the frame property: each operation the source
performs on them — `Object.keys(dataToUpdate)`, the property reads
`jsToSql[colName]` inside the map callback, `Object.values(dataToUpdate)`
— is a read, returning its result together with the (unchanged) heap;
the source contains no write to either argument. -/
def sqlForPartialUpdateSt (s : JsHeap) :
    Except JoblyError SqlUpdateResult × JsHeap :=
  let keysRead := (s.dataToUpdate.map Prod.fst, s)
  let keys := keysRead.1
  let s1 := keysRead.2
  if keys.length = 0 then
    (Except.error (JoblyError.badRequest "No data"), s1)
  else
    let colsRead := (colsFrom s1.jsToSql 0 keys, s1)
    let valuesRead := (colsRead.2.dataToUpdate.map Prod.snd, colsRead.2)
    (Except.ok { setCols := String.intercalate ", " colsRead.1
                 values := valuesRead.1 }, valuesRead.2)

example : sqlForPartialUpdate [("firstName", JSValue.vStr "Aliya")]
    [("firstName", "first_name")] =
    Except.ok { setCols := "\"first_name\"=$1"
                values := [JSValue.vStr "Aliya"] } := rfl

example : sqlForPartialUpdate
    [("firstName", JSValue.vStr "Aliya"), ("age", JSValue.vNum 32)]
    [("firstName", "first_name")] =
    Except.ok { setCols := "\"first_name\"=$1, \"age\"=$2"
                values := [JSValue.vStr "Aliya", JSValue.vNum 32] } := rfl

/-- C3: for every translation table, calling `sqlForPartialUpdate` with
an empty payload fails with the `BadRequest`-class error "No data",
and — the result being an error and nothing else — no assignment clause
and no values sequence are produced. -/
theorem sqlForPartialUpdate_empty_payload (jsToSql : Table) :
    sqlForPartialUpdate [] jsToSql =
      Except.error (JoblyError.badRequest "No data") := rfl

theorem colsFrom_length (jsToSql : Table) (idx : Nat) (keys : List String) :
    (colsFrom jsToSql idx keys).length = keys.length := by
  induction keys generalizing idx with
  | nil => rfl
  | cons k rest ih => simp [colsFrom, ih]

theorem colsFrom_getElem (jsToSql : Table) (idx i : Nat) (keys : List String) :
    (colsFrom jsToSql idx keys)[i]? =
      (keys[i]?).map (fun k =>
        "\"" ++ resolveCol jsToSql k ++ "\"=$" ++ toString (idx + i + 1)) := by
  induction keys generalizing idx i with
  | nil => simp [colsFrom]
  | cons k rest ih =>
      cases i with
      | zero => simp [colsFrom]
      | succ j =>
          simp only [colsFrom, List.getElem?_cons_succ, ih]
          have harith : idx + 1 + j + 1 = idx + (j + 1) + 1 := by omega
          rw [harith]

theorem colsFrom_congr (t1 t2 : Table) (idx : Nat) (keys : List String)
    (h : ∀ k ∈ keys, resolveCol t1 k = resolveCol t2 k) :
    colsFrom t1 idx keys = colsFrom t2 idx keys := by
  induction keys generalizing idx with
  | nil => rfl
  | cons k rest ih =>
      simp only [colsFrom]
      rw [h k (List.mem_cons_self k rest),
        ih (idx + 1) (fun x hx => h x (List.mem_cons_of_mem k hx))]

theorem assocLookup_of_nodup {α : Type} (p : List (String × α))
    (hnd : (p.map Prod.fst).Nodup) (i : Nat) (k : String)
    (hk : (p.map Prod.fst)[i]? = some k) :
    assocLookup p k = (p.map Prod.snd)[i]? := by
  induction p generalizing i with
  | nil => simp at hk
  | cons hd rest ih =>
      cases i with
      | zero =>
          simp only [List.map_cons, List.getElem?_cons_zero,
            Option.some.injEq] at hk
          subst hk
          simp [assocLookup]
      | succ j =>
          simp only [List.map_cons, List.getElem?_cons_succ] at hk
          simp only [List.map_cons, List.nodup_cons] at hnd
          have hkmem : k ∈ rest.map Prod.fst := by
            exact List.getElem?_mem hk
          have hne : k ≠ hd.1 := by
            intro h
            exact hnd.1 (h ▸ hkmem)
          simp only [List.map_cons, List.getElem?_cons_succ]
          rw [show assocLookup (hd :: rest) k =
                assocLookup rest k from by
              cases hd with
              | mk k0 v0 => simp [assocLookup, hne]]
          exact ih hnd.2 j hk

theorem sqlForPartialUpdate_ok (p : Payload) (t : Table) (h : p ≠ []) :
    sqlForPartialUpdate p t =
      Except.ok { setCols :=
                    String.intercalate ", " (colsFrom t 0 (p.map Prod.fst))
                  values := p.map Prod.snd } := by
  unfold sqlForPartialUpdate
  rw [if_neg]
  simp [List.length_eq_zero, h]

/-- C1: for every non-empty payload, `sqlForPartialUpdate` succeeds and
returns a values sequence that is exactly the payload's values in key
(insertion) order — same length as the key list, and, when the keys are
distinct (as they always are for a JS object), the `i`-th value is the
payload's value at the `i`-th key — while the assignment clause is the
`", "`-join of one term per key, the `i`-th term carrying the 1-based
placeholder `$(i+1)` for the `i`-th key, left to right. -/
theorem sqlForPartialUpdate_ordering (p : Payload) (t : Table) (h : p ≠ []) :
    ∃ r : SqlUpdateResult,
      sqlForPartialUpdate p t = Except.ok r ∧
      r.values = p.map Prod.snd ∧
      r.values.length = (p.map Prod.fst).length ∧
      ((p.map Prod.fst).Nodup → ∀ i : Nat, ∀ k : String,
        (p.map Prod.fst)[i]? = some k → assocLookup p k = r.values[i]?) ∧
      ∃ terms : List String,
        r.setCols = String.intercalate ", " terms ∧
        terms.length = (p.map Prod.fst).length ∧
        ∀ i : Nat, ∀ k : String, (p.map Prod.fst)[i]? = some k →
          terms[i]? =
            some ("\"" ++ resolveCol t k ++ "\"=$" ++ toString (i + 1)) := by
  refine ⟨_, sqlForPartialUpdate_ok p t h, rfl, by simp, ?_,
    colsFrom t 0 (p.map Prod.fst), rfl,
    colsFrom_length t 0 (p.map Prod.fst), ?_⟩
  · intro hnd i k hk
    exact assocLookup_of_nodup p hnd i k hk
  · intro i k hk
    rw [colsFrom_getElem, hk]
    simp [Nat.zero_add]

/-- C1 witness: the two-field example from the repository's own test
file, evaluated concretely. -/
theorem sqlForPartialUpdate_ordering_witness :
    ∃ r : SqlUpdateResult,
      sqlForPartialUpdate
          [("firstName", JSValue.vStr "Aliya"), ("age", JSValue.vNum 32)]
          [("firstName", "first_name")] = Except.ok r ∧
      r.values = ([("firstName", JSValue.vStr "Aliya"),
        ("age", JSValue.vNum 32)] : Payload).map Prod.snd ∧
      r.values.length = (([("firstName", JSValue.vStr "Aliya"),
        ("age", JSValue.vNum 32)] : Payload).map Prod.fst).length ∧
      ((([("firstName", JSValue.vStr "Aliya"),
        ("age", JSValue.vNum 32)] : Payload).map Prod.fst).Nodup →
        ∀ i : Nat, ∀ k : String,
        (([("firstName", JSValue.vStr "Aliya"),
          ("age", JSValue.vNum 32)] : Payload).map Prod.fst)[i]? = some k →
        assocLookup [("firstName", JSValue.vStr "Aliya"),
          ("age", JSValue.vNum 32)] k = r.values[i]?) ∧
      ∃ terms : List String,
        r.setCols = String.intercalate ", " terms ∧
        terms.length = (([("firstName", JSValue.vStr "Aliya"),
          ("age", JSValue.vNum 32)] : Payload).map Prod.fst).length ∧
        ∀ i : Nat, ∀ k : String,
          (([("firstName", JSValue.vStr "Aliya"),
            ("age", JSValue.vNum 32)] : Payload).map Prod.fst)[i]? = some k →
          terms[i]? =
            some ("\"" ++ resolveCol [("firstName", "first_name")] k ++
              "\"=$" ++ toString (i + 1)) :=
  sqlForPartialUpdate_ordering
    [("firstName", JSValue.vStr "Aliya"), ("age", JSValue.vNum 32)]
    [("firstName", "first_name")] (by decide)

/-- C2 counterexample: the claim says the assignment term uses the
resolved column name `translationTable[k]` whenever `k` is present in
the table.  With the table `{ a: "" }` the key `"a"` is present and
maps to the empty string, yet — because the source resolves with
JavaScript `jsToSql[colName] || colName`, and the empty string is
falsy — the generated term is `"a"=$1`, not the `""=$1` the claim
requires. -/
theorem sqlForPartialUpdate_translation_cex :
    assocLookup [("a", "")] "a" = some "" ∧
    sqlForPartialUpdate [("a", JSValue.vNull)] [("a", "")] =
      Except.ok { setCols := "\"a\"=$1", values := [JSValue.vNull] } ∧
    "\"a\"=$1" ≠ "\"\"=$1" := by
  refine ⟨rfl, rfl, by decide⟩

/-- C2 amended: for every non-empty payload the assignment clause joins
one term `"<column>"=$(i+1)` per key, where the resolved column name is
`translationTable[k]` when `k` is present in the table **with a
non-empty column name**, and `k` itself verbatim when `k` is absent or
maps to the empty string (JS `||` fallback); in particular with the
empty translation table every key resolves to itself. -/
theorem sqlForPartialUpdate_translation (p : Payload) (t : Table)
    (h : p ≠ []) :
    (∃ r : SqlUpdateResult,
      sqlForPartialUpdate p t = Except.ok r ∧
      ∃ terms : List String,
        r.setCols = String.intercalate ", " terms ∧
        ∀ i : Nat, ∀ k : String, (p.map Prod.fst)[i]? = some k →
          terms[i]? =
            some ("\"" ++ resolveCol t k ++ "\"=$" ++ toString (i + 1))) ∧
    (∀ k c : String, assocLookup t k = some c → c ≠ "" →
      resolveCol t k = c) ∧
    (∀ k : String, assocLookup t k = none → resolveCol t k = k) ∧
    (∀ k : String, assocLookup t k = some "" → resolveCol t k = k) ∧
    (∀ k : String, resolveCol ([] : Table) k = k) := by
  refine ⟨⟨_, sqlForPartialUpdate_ok p t h,
      colsFrom t 0 (p.map Prod.fst), rfl, ?_⟩, ?_, ?_, ?_, fun k => rfl⟩
  · intro i k hk
    rw [colsFrom_getElem, hk]
    simp [Nat.zero_add]
  · intro k c hc hne
    simp [resolveCol, hc, hne]
  · intro k hc
    simp [resolveCol, hc]
  · intro k hc
    simp [resolveCol, hc]

/-- C2 witness: payload `{ firstName, age }` against the table
`{ firstName: "first_name" }` — `firstName` is present with a non-empty
column name, `age` is absent. -/
theorem sqlForPartialUpdate_translation_witness :
    (∃ r : SqlUpdateResult,
      sqlForPartialUpdate
          [("firstName", JSValue.vStr "Aliya"), ("age", JSValue.vNum 32)]
          [("firstName", "first_name")] = Except.ok r ∧
      ∃ terms : List String,
        r.setCols = String.intercalate ", " terms ∧
        ∀ i : Nat, ∀ k : String,
          (([("firstName", JSValue.vStr "Aliya"),
            ("age", JSValue.vNum 32)] : Payload).map Prod.fst)[i]? = some k →
          terms[i]? =
            some ("\"" ++ resolveCol [("firstName", "first_name")] k ++
              "\"=$" ++ toString (i + 1))) ∧
    (∀ k c : String,
      assocLookup [("firstName", "first_name")] k = some c → c ≠ "" →
        resolveCol [("firstName", "first_name")] k = c) ∧
    (∀ k : String, assocLookup [("firstName", "first_name")] k = none →
      resolveCol [("firstName", "first_name")] k = k) ∧
    (∀ k : String, assocLookup [("firstName", "first_name")] k = some "" →
      resolveCol [("firstName", "first_name")] k = k) ∧
    (∀ k : String, resolveCol ([] : Table) k = k) :=
  sqlForPartialUpdate_translation
    [("firstName", JSValue.vStr "Aliya"), ("age", JSValue.vNum 32)]
    [("firstName", "first_name")] (by decide)

/-- C4: the assignment clause depends only on the payload's keys and the
translation table, never on the payload's values — two payloads with
the same keys in the same order yield the identical clause (values
reach the output only through the separately returned `values`
sequence, bound to placeholders). -/
theorem sqlForPartialUpdate_clause_key_only (p1 p2 : Payload) (t : Table)
    (h : p1.map Prod.fst = p2.map Prod.fst) :
    Except.map SqlUpdateResult.setCols (sqlForPartialUpdate p1 t) =
      Except.map SqlUpdateResult.setCols (sqlForPartialUpdate p2 t) := by
  simp only [sqlForPartialUpdate, h]
  split <;> simp [Except.map]

/-- C4 witness: same single key `a`, once with a hostile string value
and once with a number — identical clause. -/
theorem sqlForPartialUpdate_clause_key_only_witness :
    Except.map SqlUpdateResult.setCols
        (sqlForPartialUpdate [("a", JSValue.vStr "x; DROP TABLE jobs")] []) =
      Except.map SqlUpdateResult.setCols
        (sqlForPartialUpdate [("a", JSValue.vNum 5)] []) :=
  sqlForPartialUpdate_clause_key_only
    [("a", JSValue.vStr "x; DROP TABLE jobs")] [("a", JSValue.vNum 5)] []
    rfl

/-- C5: `sqlForPartialUpdate` is deterministic — two calls with
identical payload and identical translation table return identical
results (clause and values both). -/
theorem sqlForPartialUpdate_deterministic (p1 p2 : Payload)
    (t1 t2 : Table) (hp : p1 = p2) (ht : t1 = t2) :
    sqlForPartialUpdate p1 t1 = sqlForPartialUpdate p2 t2 := by
  rw [hp, ht]

/-- C5 witness: the repository test's own input, called twice. -/
theorem sqlForPartialUpdate_deterministic_witness :
    sqlForPartialUpdate [("firstName", JSValue.vStr "Aliya")]
        [("firstName", "first_name")] =
      sqlForPartialUpdate [("firstName", JSValue.vStr "Aliya")]
        [("firstName", "first_name")] :=
  sqlForPartialUpdate_deterministic
    [("firstName", JSValue.vStr "Aliya")]
    [("firstName", JSValue.vStr "Aliya")]
    [("firstName", "first_name")] [("firstName", "first_name")] rfl rfl

/-- C7: with an empty payload, `Company.update` and `Job.update`
propagate the compiler's `BadRequest` error unchanged — nothing is
caught, retried or suppressed — and the error return carries no
`(querySql, parameters)` pair, so no database query is issued and no
state can change on this path. -/
theorem update_empty_payload_propagates (handle : String) (id : Int) :
    Company.update handle [] =
      Except.error (JoblyError.badRequest "No data") ∧
    Job.update id [] =
      Except.error (JoblyError.badRequest "No data") :=
  ⟨rfl, rfl⟩

/-- C8: `sqlForPartialUpdate` is pure — run over the explicit heap of
its two argument objects, it returns the heap unchanged (no key or
value of either argument is added, removed or modified), and its result
agrees with the direct functional embedding; the embedding performs no
I/O and contacts no database. -/
theorem sqlForPartialUpdate_pure (s : JsHeap) :
    (sqlForPartialUpdateSt s).2 = s ∧
    (sqlForPartialUpdateSt s).1 =
      sqlForPartialUpdate s.dataToUpdate s.jsToSql := by
  unfold sqlForPartialUpdateSt sqlForPartialUpdate
  by_cases hz : s.dataToUpdate = [] <;> simp [hz]

/-- C9: the output depends only on the translation table's restriction
to the payload's keys — any two tables that agree (as lookups) on every
payload key give the identical result, so entries outside the payload's
key set can be added or removed freely. -/
theorem sqlForPartialUpdate_table_restriction (p : Payload)
    (t1 t2 : Table)
    (h : ∀ k ∈ p.map Prod.fst, assocLookup t1 k = assocLookup t2 k) :
    sqlForPartialUpdate p t1 = sqlForPartialUpdate p t2 := by
  have hres : ∀ k ∈ p.map Prod.fst, resolveCol t1 k = resolveCol t2 k := by
    intro k hk
    unfold resolveCol
    rw [h k hk]
  simp only [sqlForPartialUpdate,
    colsFrom_congr t1 t2 0 (p.map Prod.fst) hres]

/-- C9 witness: dropping a table entry (`x`) that no payload key uses
leaves the result unchanged. -/
theorem sqlForPartialUpdate_table_restriction_witness :
    sqlForPartialUpdate [("a", JSValue.vNull)] [("x", "y")] =
      sqlForPartialUpdate [("a", JSValue.vNull)] [] :=
  sqlForPartialUpdate_table_restriction [("a", JSValue.vNull)]
    [("x", "y")] [] (by decide)

/-- C10: the resolved column name is interpolated into the assignment
term verbatim, with no escaping: whenever a key `k` resolves through
the table to a non-empty column name `c`, the generated term is the
exact character string `'"' ++ c ++ '"=$' ++ i`, and the term's
double-quote count is `2` plus however many double quotes `c` itself
contains — so a resolved name containing a double quote yields a term
whose quoting is not well-formed (more than the two delimiting
quotes). -/
theorem sqlForPartialUpdate_no_escaping (k c : String) (v : JSValue)
    (hc : c ≠ "") :
    sqlForPartialUpdate [(k, v)] [(k, c)] =
      Except.ok { setCols := "\"" ++ c ++ "\"=$" ++ toString 1
                  values := [v] } ∧
    ("\"" ++ c ++ "\"=$" ++ toString 1).data.count '"' =
      2 + c.data.count '"' := by
  constructor
  · rw [sqlForPartialUpdate_ok [(k, v)] [(k, c)] (by simp)]
    have hres : resolveCol [(k, c)] k = c := by
      unfold resolveCol
      rw [show assocLookup [(k, c)] k = some c from by simp [assocLookup]]
      simp [hc]
    simp only [colsFrom, hres, Nat.zero_add, List.map_cons, List.map_nil]
    rfl
  · rw [show ("\"" ++ c ++ "\"=$" ++ toString 1).data =
        "\"".data ++ (c.data ++ ("\"=$".data ++ (toString 1).data)) from by
      simp [String.data_append]]
    rw [List.count_append, List.count_append, List.count_append]
    have h1 : ("\"".data).count '"' = 1 := by decide
    have h2 : ("\"=$".data).count '"' = 1 := by decide
    have h3 : (((toString 1 : String)).data).count '"' = 0 := by decide
    rw [h1, h2, h3]
    omega

/-- C10 witness: table entry `a ↦ x"y` — the emitted clause is
`"x"y"=$1`, carrying three double quotes. -/
theorem sqlForPartialUpdate_no_escaping_witness :
    (sqlForPartialUpdate [("a", JSValue.vNull)] [("a", "x\"y")] =
      Except.ok { setCols := "\"" ++ "x\"y" ++ "\"=$" ++ toString 1
                  values := [JSValue.vNull] }) ∧
    ("\"" ++ "x\"y" ++ "\"=$" ++ toString 1).data.count '"' =
      2 + ("x\"y" : String).data.count '"' :=
  sqlForPartialUpdate_no_escaping "a" "x\"y" JSValue.vNull (by decide)

/-- C6: for a non-empty `n`-key payload, `Company.update` and
`Job.update` interpolate the compiler's assignment clause into the
`UPDATE` template whose primary-key predicate (`WHERE handle = …` /
`WHERE id = …`) carries exactly the next sequential placeholder
`$(n+1)`, and they pass the key value as the `(n+1)`-th parameter,
after the compiler's `n` values in payload order. -/
theorem update_next_placeholder (handle : String) (id : Int)
    (data : Payload) (h : data ≠ []) :
    ∃ rc rj : SqlUpdateResult,
      sqlForPartialUpdate data companyJsToSql = Except.ok rc ∧
      sqlForPartialUpdate data jobJsToSql = Except.ok rj ∧
      rc.values.length = data.length ∧
      rj.values.length = data.length ∧
      Company.update handle data =
        Except.ok
          (companyQuerySql rc.setCols ("$" ++ toString (data.length + 1)),
           data.map Prod.snd ++ [JSValue.vStr handle]) ∧
      Job.update id data =
        Except.ok
          (jobQuerySql rj.setCols ("$" ++ toString (data.length + 1)),
           data.map Prod.snd ++ [JSValue.vNum id]) := by
  refine ⟨_, _, sqlForPartialUpdate_ok data companyJsToSql h,
    sqlForPartialUpdate_ok data jobJsToSql h, by simp, by simp, ?_, ?_⟩
  · unfold Company.update
    rw [sqlForPartialUpdate_ok data companyJsToSql h]
    simp
  · unfold Job.update
    rw [sqlForPartialUpdate_ok data jobJsToSql h]
    simp

/-- C6 witness: single-field payload `{ name }` — the `WHERE` predicate
placeholder is `$2` and the key value is the second parameter. -/
theorem update_next_placeholder_witness :
    ∃ rc rj : SqlUpdateResult,
      sqlForPartialUpdate [("name", JSValue.vStr "New")] companyJsToSql =
        Except.ok rc ∧
      sqlForPartialUpdate [("name", JSValue.vStr "New")] jobJsToSql =
        Except.ok rj ∧
      rc.values.length =
        ([("name", JSValue.vStr "New")] : Payload).length ∧
      rj.values.length =
        ([("name", JSValue.vStr "New")] : Payload).length ∧
      Company.update "c1" [("name", JSValue.vStr "New")] =
        Except.ok
          (companyQuerySql rc.setCols
            ("$" ++ toString
              (([("name", JSValue.vStr "New")] : Payload).length + 1)),
           ([("name", JSValue.vStr "New")] : Payload).map Prod.snd ++
             [JSValue.vStr "c1"]) ∧
      Job.update 7 [("name", JSValue.vStr "New")] =
        Except.ok
          (jobQuerySql rj.setCols
            ("$" ++ toString
              (([("name", JSValue.vStr "New")] : Payload).length + 1)),
           ([("name", JSValue.vStr "New")] : Payload).map Prod.snd ++
             [JSValue.vNum 7]) :=
  update_next_placeholder "c1" 7 [("name", JSValue.vStr "New")]
    (by decide)
